import Mathlib

/-!
Shallow embedding of the zbx_tag_manager core: the `ZabbixAPI` client
(`src/app/zabbix_api.py`) and the bulk-request orchestration endpoints
(`src/app.py`).  Remote HTTP traffic is modelled by an environment
function `Nat → HResp` giving the response to the n-th POST issued by
the client; the client state records the number of POSTs issued and a
log of (method, params) for each, so that "no remote call was made"
and "what was pushed on update" are provable statements.

The three object kinds (host, trigger, item) have textually identical
tag-mutation code in the source, differing only in the remote method
names; the embedding is parameterized by the kind with a table of
method names, mirroring that duplication.
-/

/-- A tag as fetched from the remote API: `tag`, `value`, and the
remote-only `automatic` field (absent = `none`). -/
structure RTag where
  tag : String
  value : String
  automatic : Option String
deriving DecidableEq, Repr

/-- A monitored object (host/trigger/item) as far as the tagging logic
inspects it: its id, display name, `flags` string and tag list. -/
structure RObj where
  objId : Int
  name : String
  flags : String
  tags : List RTag
deriving DecidableEq, Repr

/-- JSON result values the client consumes: the login token string, a
listing of objects, a count, or null. -/
inductive JVal where
  | vstr (s : String)
  | vlist (objs : List RObj)
  | vnum (n : Int)
  | vnull
deriving DecidableEq, Repr

/-- Python truthiness of a result value (used for `not self.auth_token`). -/
def jvalTruthy : JVal → Bool
  | .vstr s => !s.isEmpty
  | .vlist objs => !objs.isEmpty
  | .vnum n => n != 0
  | .vnull => false

/-- Parameters of a remote call, as far as the claims need to inspect
them: login credentials, a get-by-ids, an update with a pushed tag
list, a listing query, or a count query. -/
inductive Params where
  | loginP (user pass : String)
  | getP (ids : List Int)
  | updateP (objId : Int) (tags : List RTag)
  | listP
  | countP
deriving DecidableEq, Repr

/-- One HTTP POST issued by the client: remote method plus params. -/
structure CallRec where
  method : String
  params : Params
deriving DecidableEq, Repr

/-- Remote response to one POST: a transport error (requests
exception), an error-shaped body `{error: {message}}`, or a result
body `{result: v}`. -/
inductive HResp where
  | transport
  | err (message : String)
  | ok (v : JVal)
deriving DecidableEq, Repr

/-- Client configuration, read from the environment at construction in
the source (`ZABBIX_API_TOKEN`, `ZABBIX_USER`, `ZABBIX_PASSWORD`);
`none` models an unset variable. -/
structure Config where
  apiToken : Option String
  username : Option String
  password : Option String
deriving DecidableEq, Repr

/-- Python truthiness of an optional string config entry. -/
def truthyOpt : Option String → Bool
  | none => false
  | some s => !s.isEmpty

/-- Mutable state of a `ZabbixAPI` instance plus instrumentation: the
stored `auth_token`, the number of POSTs issued so far (`calls`, also
the index into the response environment), and the log of issued calls. -/
structure ClientSt where
  cfg : Config
  authToken : Option JVal
  calls : Nat
  log : List CallRec
deriving DecidableEq, Repr

/-- A freshly constructed client (`ZabbixAPI()`): token unset, no
remote traffic yet. -/
def freshSt (cfg : Config) : ClientSt :=
  { cfg := cfg, authToken := none, calls := 0, log := [] }

/-- Truthiness of `self.auth_token`. -/
def authTruthy (st : ClientSt) : Bool :=
  match st.authToken with
  | none => false
  | some v => jvalTruthy v

/-- Issue one HTTP POST: consume the next environment response, bump
the call counter and append to the log. -/
def post (env : Nat → HResp) (st : ClientSt) (method : String) (p : Params) :
    HResp × ClientSt :=
  (env st.calls,
   { st with calls := st.calls + 1, log := st.log ++ [⟨method, p⟩] })

/-- Model of `ZabbixAPI.authenticate` (zabbix_api.py:42-89): a static API token
is used directly with no remote round-trip; otherwise username and
password must both be set and a `user.login` POST is made, storing the
returned result as the session token on success. -/
def authenticate (env : Nat → HResp) (st : ClientSt) : Bool × ClientSt :=
  if truthyOpt st.cfg.apiToken then
    (true, { st with authToken := st.cfg.apiToken.map JVal.vstr })
  else if !truthyOpt st.cfg.username || !truthyOpt st.cfg.password then
    (false, st)
  else
    match post env st "user.login"
        (.loginP (st.cfg.username.getD "") (st.cfg.password.getD "")) with
    | (.transport, st1) => (false, st1)
    | (.err _, st1) => (false, st1)
    | (.ok v, st1) => (true, { st1 with authToken := some v })

/-- Is `needle` a leading segment of `haystack` (char lists)? -/
def leadSeq : List Char → List Char → Bool
  | [], _ => true
  | _ :: _, [] => false
  | a :: as, b :: bs => a == b && leadSeq as bs

/-- Does `haystack` contain `needle` as a contiguous segment? -/
def hasSubSeq (needle : List Char) : List Char → Bool
  | [] => leadSeq needle []
  | c :: cs => leadSeq needle (c :: cs) || hasSubSeq needle cs

/-- Whitespace-stripping at the character level (Python `str.strip()`
with no argument / the trim used by the validation code). -/
def stripChars (l : List Char) : List Char :=
  ((l.dropWhile Char.isWhitespace).reverse.dropWhile Char.isWhitespace).reverse

/-- A string with surrounding whitespace removed. -/
def strTrim (s : String) : String := ⟨stripChars s.data⟩

/-- Helper for `splitComma`: accumulate the current token (reversed). -/
def splitCommaAux : List Char → List Char → List String
  | [], acc => [⟨acc.reverse⟩]
  | c :: cs, acc =>
    if c = ',' then ⟨acc.reverse⟩ :: splitCommaAux cs []
    else splitCommaAux cs (c :: acc)

/-- Python `s.split(',')`: n separators yield n+1 (possibly empty)
tokens. -/
def splitComma (s : String) : List String := splitCommaAux s.data []

/-- The retry trigger of `make_request` (zabbix_api.py:134):
`'authentication' in error_message.lower() or 'session' in
error_message.lower()`. -/
def isAuthErrMsg (msg : String) : Bool :=
  let low := msg.data.map Char.toLower
  hasSubSeq "authentication".data low || hasSubSeq "session".data low

/-- Model of `ZabbixAPI.make_request` (zabbix_api.py:91-146).  `fuel` is the
number of re-auth retries still allowed, i.e. `1 - retry_count` in the
source; the source guard `retry_count < 1` is the `fuel = f + 1` case.
If no token is stored (and the method is not the login itself) the
client first authenticates.  A transport error fails without retry; an
error-shaped response with an authentication/session message clears
the token and retries once, but never when a static API token is
configured and never for the login method. -/
def makeRequestAux (env : Nat → HResp) :
    Nat → ClientSt → String → Params → Option JVal × ClientSt
  | fuel, st0, method, params =>
    let pre : Bool × ClientSt :=
      if method = "user.login" then (true, st0)
      else if authTruthy st0 then (true, st0)
      else authenticate env st0
    match pre with
    | (false, st1) => (none, st1)
    | (true, st1) =>
      match post env st1 method params with
      | (.transport, st2) => (none, st2)
      | (.ok v, st2) => (some v, st2)
      | (.err msg, st2) =>
        match fuel with
        | 0 => (none, st2)
        | f + 1 =>
          if isAuthErrMsg msg then
            if truthyOpt st2.cfg.apiToken then (none, st2)
            else if method = "user.login" then (none, { st2 with authToken := none })
            else makeRequestAux env f { st2 with authToken := none } method params
          else (none, st2)

/-- The entry point `make_request` with the default `retry_count = 0` (one retry allowed). -/
def makeRequest (env : Nat → HResp) (st : ClientSt) (method : String)
    (params : Params) : Option JVal × ClientSt :=
  makeRequestAux env 1 st method params

/-- Model of `validate_tag_input` (zabbix_api.py:11-21): tag name must be a
non-empty string, non-empty after trimming, at most 255 chars; the
value, when non-empty (truthy), at most 255 chars. -/
def validate_tag_input (tag_name : String) (tag_value : String) : Bool :=
  if tag_name.isEmpty then false
  else if strTrim tag_name = "" then false
  else if tag_name.length > 255 then false
  else if !tag_value.isEmpty && tag_value.length > 255 then false
  else true

/-- The cap `MAX_BULK_SIZE` (zabbix_api.py:24). -/
def MAX_BULK_SIZE : Nat := 1000

/-- Object kind: the three near-identical copies of the tagging logic
in the source are indexed by this. -/
inductive Kind where
  | host
  | trigger
  | item
deriving DecidableEq, Repr

/-- Remote "get" method per kind. -/
def kindGetMethod : Kind → String
  | .host => "host.get"
  | .trigger => "trigger.get"
  | .item => "item.get"

/-- Remote "update" method per kind. -/
def kindUpdateMethod : Kind → String
  | .host => "host.update"
  | .trigger => "trigger.update"
  | .item => "item.update"

/-- Model of `get_host_details` / `get_trigger_details` / `get_item_details`
(zabbix_api.py:175-184, 429-440, 677-687): fetch by id, return the
first element of the resulting list, or nothing when the result is
absent or empty (`hosts[0] if hosts else {}`). -/
def get_details (k : Kind) (env : Nat → HResp) (st : ClientSt) (objId : Int) :
    Option RObj × ClientSt :=
  match makeRequest env st (kindGetMethod k) (.getP [objId]) with
  | (some (.vlist (h :: _)), st1) => (some h, st1)
  | (_, st1) => (none, st1)

/-- The `clean_tags` step (zabbix_api.py:220-223 and twins): rebuild
each tag from only its `tag` and `value` fields, dropping `automatic`. -/
def stripAuto (t : RTag) : RTag :=
  { tag := t.tag, value := t.value, automatic := none }

/-- Model of `add_tag_to_host` / `add_tag_to_trigger` / `add_tag_to_item`
(zabbix_api.py:186-236, 442-492, 689-739): validate the tag, require a
positive id, fetch the object; fail if it is absent or already carries
a tag of that name; otherwise append the new tag, strip `automatic`
from every tag, and push the full list via the kind's update method.
Success iff the update returned a result. -/
def add_tag (k : Kind) (env : Nat → HResp) (st : ClientSt) (objId : Int)
    (tag_name tag_value : String) : Bool × ClientSt :=
  if !validate_tag_input tag_name tag_value then (false, st)
  else if objId ≤ 0 then (false, st)
  else
    match get_details k env st objId with
    | (none, st1) => (false, st1)
    | (some obj, st1) =>
      if obj.tags.any (fun t => t.tag == tag_name) then (false, st1)
      else
        match makeRequest env st1 (kindUpdateMethod k)
            (.updateP objId ((obj.tags ++ [(⟨tag_name, tag_value, none⟩ : RTag)]).map stripAuto)) with
        | (res, st2) => (res.isSome, st2)

/-- Model of `remove_tag_from_host` / `..._trigger` / `..._item`
(zabbix_api.py:238-283, 494-539, 741-786): require a non-blank tag
name and positive id, fetch the object; filter out tags matching the
name; if nothing was removed, fail; otherwise strip `automatic` and
push the filtered list.  Success iff the update returned a result. -/
def remove_tag (k : Kind) (env : Nat → HResp) (st : ClientSt) (objId : Int)
    (tag_name : String) : Bool × ClientSt :=
  if strTrim tag_name = "" then (false, st)
  else if objId ≤ 0 then (false, st)
  else
    match get_details k env st objId with
    | (none, st1) => (false, st1)
    | (some obj, st1) =>
      if (obj.tags.filter (fun t => !(t.tag == tag_name))).length = obj.tags.length then
        (false, st1)
      else
        match makeRequest env st1 (kindUpdateMethod k)
            (.updateP objId ((obj.tags.filter (fun t => !(t.tag == tag_name))).map stripAuto)) with
        | (res, st2) => (res.isSome, st2)

/-- The `{'success': .., 'failed': .., 'errors': [..]}` record returned
by the detailed bulk operations. -/
structure BulkResult where
  success : Nat
  failed : Nat
  errors : List Int
deriving DecidableEq, Repr

/-- The sequential per-id loop of the detailed bulk operations
(zabbix_api.py:311-320 and twins), with the running counters as
accumulators: on success bump `success`, on failure bump `failed` and
append the id to `errors`; never aborts early. -/
def bulkLoop (step : ClientSt → Int → Bool × ClientSt) :
    ClientSt → List Int → Nat → Nat → List Int → BulkResult × ClientSt
  | st, [], s, f, errs => ({ success := s, failed := f, errors := errs }, st)
  | st, objId :: rest, s, f, errs =>
    match step st objId with
    | (true, st1) => bulkLoop step st1 rest (s + 1) f errs
    | (false, st1) => bulkLoop step st1 rest s (f + 1) (errs ++ [objId])

/-- Model of `bulk_add_tags_detailed` / `bulk_add_tags_to_triggers_detailed` /
`bulk_add_tags_to_items_detailed` (zabbix_api.py:302-326, 558-582,
805-829): empty input short-circuits to zero counts; a list longer
than `MAX_BULK_SIZE` is truncated to its first `MAX_BULK_SIZE`
elements; then the per-id loop runs `add_tag` sequentially. -/
def bulk_add_tags_detailed (k : Kind) (env : Nat → HResp) (st : ClientSt)
    (ids : List Int) (tag_name tag_value : String) : BulkResult × ClientSt :=
  if ids.isEmpty then ({ success := 0, failed := 0, errors := [] }, st)
  else
    let ids2 := if ids.length > MAX_BULK_SIZE then ids.take MAX_BULK_SIZE else ids
    bulkLoop (fun s i => add_tag k env s i tag_name tag_value) st ids2 0 0 []

/-- Model of `bulk_remove_tags_detailed` and its trigger/item twins
(zabbix_api.py:345-369, 601-625, 848-872), same shape with
`remove_tag` as the step. -/
def bulk_remove_tags_detailed (k : Kind) (env : Nat → HResp) (st : ClientSt)
    (ids : List Int) (tag_name : String) : BulkResult × ClientSt :=
  if ids.isEmpty then ({ success := 0, failed := 0, errors := [] }, st)
  else
    let ids2 := if ids.length > MAX_BULK_SIZE then ids.take MAX_BULK_SIZE else ids
    bulkLoop (fun s i => remove_tag k env s i tag_name) st ids2 0 0 []

/-- Model of `get_hosts` / `get_triggers` / `get_items` (zabbix_api.py:148-164,
400-418, 647-665): listing query; `xs if xs else []` turns a failed or
empty (or, degenerately, non-list) result into the empty list.
Pagination parameters only shape the remote query and are omitted. -/
def get_list (k : Kind) (env : Nat → HResp) (st : ClientSt) :
    List RObj × ClientSt :=
  match makeRequest env st (kindGetMethod k) .listP with
  | (some (.vlist objs), st1) => (objs, st1)
  | (_, st1) => ([], st1)

/-! ## Orchestration layer (src/app.py) -/

/-- Digit-string to number; `none` unless non-empty and all digits. -/
def digitsVal : List Char → Option Nat
  | [] => none
  | ds =>
    if ds.all Char.isDigit then
      some (ds.foldl (fun acc c => acc * 10 + (c.toNat - 48)) 0)
    else none

/-- Python `int(s)` on a decimal string: strip surrounding whitespace,
optional sign, then digits; anything else raises (modelled as `none`).
(Underscore digit separators, accepted by Python, are never produced
by the id inputs and are not modelled.) -/
def pyInt (s : String) : Option Int :=
  match stripChars s.data with
  | '+' :: ds => (digitsVal ds).map (fun n => (n : Int))
  | '-' :: ds => (digitsVal ds).map (fun n => -(n : Int))
  | ds => (digitsVal ds).map (fun n => (n : Int))

/-- Host/trigger bulk id parsing (app.py:128-132, 289-292):
`[int(hid) for hid in host_ids]`, the whole request rejected on the
first element that is not a single integer.  No splitting, no
de-duplication. -/
def parseHostIds : List String → Option (List Int)
  | [] => some []
  | v :: rest =>
    match pyInt v, parseHostIds rest with
    | some n, some ns => some (n :: ns)
    | _, _ => none

/-- One raw item-id element split on commas (app.py:520-525): each
token is stripped, empty tokens are skipped, the rest must parse as
integers. -/
def parseTokens : List String → Option (List Int)
  | [] => some []
  | tok :: rest =>
    let t := strTrim tok
    if t = "" then parseTokens rest
    else
      match pyInt t, parseTokens rest with
      | some n, some ns => some (n :: ns)
      | _, _ => none

/-- Item bulk id parsing (app.py:517-527): every element is split on
commas and its tokens parsed; any bad token rejects the whole request.
(De-duplication happens separately, app.py:530.) -/
def parseItemIds : List String → Option (List Int)
  | [] => some []
  | v :: rest =>
    match parseTokens (splitComma v), parseItemIds rest with
    | some a, some b => some (a ++ b)
    | _, _ => none

/-- A bulk request body as the endpoints read it: `operation`,
the raw id list (elements already `str()`-able; modelled as strings),
`tag` (possibly absent) and `value` (absent defaults to `""`). -/
structure BulkReq where
  operation : Option String
  ids : List String
  tag : Option String
  value : String
deriving DecidableEq, Repr

/-- An endpoint's JSON response envelope: `{'success': False,
'message': ..}` or `{'success': True, 'message': .., 'details': ..}`. -/
inductive EResp where
  | failure (msg : String)
  | okDetails (msg : String) (details : BulkResult)
deriving DecidableEq, Repr

/-- The success message built by the bulk endpoints
(e.g. app.py:143-145). -/
def bulkMsg (verb noun : String) (r : BulkResult) : String :=
  let base := "Tag " ++ verb ++ " " ++ toString r.success ++ " " ++ noun
  if r.failed > 0 then
    base ++ " (" ++ toString r.failed ++ " failed - likely discovered/read-only)"
  else base

/-- Model of `bulk_tag_operation` (app.py:105-172), the host bulk endpoint;
the trigger endpoint (app.py:271-332) is textually identical modulo
message nouns.  Order of checks as in the source: tag name, non-empty
id list, integer conversion (no comma splitting, no de-duplication),
length limits, client construction + authentication, then the
operation dispatch; any operation other than `"add"`/`"remove"`
answers `"Unknown operation"`.  Validation failures occur before the
client exists; the pristine `freshSt` is returned for them. -/
def bulk_tag_operation (cfg : Config) (env : Nat → HResp) (req : BulkReq) :
    EResp × ClientSt :=
  match req.tag with
  | none => (.failure "Tag name is required", freshSt cfg)
  | some tag_name =>
    if strTrim tag_name = "" then (.failure "Tag name is required", freshSt cfg)
    else if req.ids.isEmpty then (.failure "No hosts selected", freshSt cfg)
    else
      match parseHostIds req.ids with
      | none => (.failure "Invalid host IDs", freshSt cfg)
      | some host_ids =>
        if tag_name.length > 255 || (!req.value.isEmpty && req.value.length > 255) then
          (.failure "Tag name or value too long (max 255 characters)", freshSt cfg)
        else
          match authenticate env (freshSt cfg) with
          | (false, st1) => (.failure "Authorization error", st1)
          | (true, st1) =>
            if req.operation = some "add" then
              match bulk_add_tags_detailed .host env st1 host_ids tag_name req.value with
              | (r, st2) => (.okDetails (bulkMsg "added to" "hosts" r) r, st2)
            else if req.operation = some "remove" then
              match bulk_remove_tags_detailed .host env st1 host_ids tag_name with
              | (r, st2) => (.okDetails (bulkMsg "removed from" "hosts" r) r, st2)
            else (.failure "Unknown operation", st1)

/-- Model of `bulk_item_operation` (app.py:499-572), the item bulk endpoint:
same shape, except each raw id element is comma-split and the parsed
ids are de-duplicated (`list(set(item_ids))`, app.py:530) before the
bulk call.  Python's set iteration order is unspecified; the model
fixes `List.dedup` order, which the claims never depend on.  The
source appends the exception text to the invalid-ids message; the
model keeps that fixed message text. -/
def bulk_item_operation (cfg : Config) (env : Nat → HResp) (req : BulkReq) :
    EResp × ClientSt :=
  match req.tag with
  | none => (.failure "Tag name is required", freshSt cfg)
  | some tag_name =>
    if strTrim tag_name = "" then (.failure "Tag name is required", freshSt cfg)
    else if req.ids.isEmpty then (.failure "No items selected", freshSt cfg)
    else
      match parseItemIds req.ids with
      | none => (.failure "Invalid item IDs", freshSt cfg)
      | some parsed =>
        let item_ids := parsed.dedup
        if tag_name.length > 255 || (!req.value.isEmpty && req.value.length > 255) then
          (.failure "Tag name or value too long (max 255 characters)", freshSt cfg)
        else
          match authenticate env (freshSt cfg) with
          | (false, st1) => (.failure "Authorization error", st1)
          | (true, st1) =>
            if req.operation = some "add" then
              match bulk_add_tags_detailed .item env st1 item_ids tag_name req.value with
              | (r, st2) => (.okDetails (bulkMsg "added to" "items" r) r, st2)
            else if req.operation = some "remove" then
              match bulk_remove_tags_detailed .item env st1 item_ids tag_name with
              | (r, st2) => (.okDetails (bulkMsg "removed from" "items" r) r, st2)
            else (.failure "Unknown operation", st1)

/-! ## Discipline of the automatic flag on pushed updates -/

/-- An update call's pushed tags carry no `automatic` field; any other
call is trivially fine. -/
def cleanP : Params → Bool
  | .updateP _ tags => tags.all (fun t => t.automatic.isNone)
  | _ => true

/-- Every logged call pushes only `automatic`-free tags. -/
def cleanLog (l : List CallRec) : Bool :=
  l.all (fun rec => cleanP rec.params)

/-! ## Concrete fixtures for witnesses and counterexamples -/

/-- Config with a static API token only. -/
def cfgToken : Config :=
  { apiToken := some "tkn", username := none, password := none }

/-- Config with username/password only. -/
def cfgPass : Config :=
  { apiToken := none, username := some "u", password := some "pw" }

/-- Remote that always fails at the transport level. -/
def envTransport : Nat → HResp := fun _ => .transport

/-- A host that already carries the tag `env=prod` (with the remote
`automatic` flag set on it). -/
def hostOne : RObj :=
  { objId := 1, name := "web-01", flags := "0",
    tags := [⟨"env", "prod", some "1"⟩] }

/-- Remote that answers every query with the listing `[hostOne]`. -/
def envHostOne : Nat → HResp := fun _ => .ok (.vlist [hostOne])

/-- Remote that answers every query with a login-token result. -/
def envLoginOk : Nat → HResp := fun _ => .ok (.vstr "tok")

/-- Remote for the re-auth scenario: first call is rejected with a
session error, the re-login succeeds, every later call errors again. -/
def envRetry : Nat → HResp := fun n =>
  match n with
  | 0 => .err "session expired"
  | 1 => .ok (.vstr "tok2")
  | _ => .err "session expired"

/-- Token-mode client that already holds a session token. -/
def stToken : ClientSt :=
  { cfg := cfgToken, authToken := some (.vstr "t0"), calls := 0, log := [] }

/-- Password-mode client that already holds a session token. -/
def stPass : ClientSt :=
  { cfg := cfgPass, authToken := some (.vstr "t0"), calls := 0, log := [] }

/-- Token-mode client right after a (tokens-only) `authenticate`. -/
def stTokenAuthed : ClientSt :=
  { freshSt cfgToken with authToken := some (.vstr "tkn") }

/-- Password-mode client right after a successful login against
`envLoginOk`. -/
def stPassAuthed : ClientSt :=
  { cfg := cfgPass, authToken := some (.vstr "tok"), calls := 1,
    log := [⟨"user.login", .loginP "u" "pw"⟩] }

/-- A bulk request with an unknown operation. -/
def reqToggle : BulkReq :=
  { operation := some "toggle", ids := ["1"], tag := some "env", value := "" }

/-- A bulk add whose id list holds a comma-joined group. -/
def reqGroup : BulkReq :=
  { operation := some "add", ids := ["5,6", "7"], tag := some "env", value := "" }

/-- A bulk add with an unparsable id element. -/
def reqBadIds : BulkReq :=
  { operation := some "add", ids := ["x"], tag := some "env", value := "" }

/-- A bulk item add with a comma group and a repeated id. -/
def reqItemAdd : BulkReq :=
  { operation := some "add", ids := ["5,6", "7", "5"], tag := some "env", value := "" }

/-! ## Helper lemmas -/

/-- Accounting invariant of the sequential bulk loop: every processed
id lands in exactly one of the success or failure counters, and each
failure contributes exactly one entry to `errors`. -/
theorem bulkLoop_counts (step : ClientSt → Int → Bool × ClientSt) :
    ∀ (l : List Int) (st : ClientSt) (s f : Nat) (errs : List Int),
    (bulkLoop step st l s f errs).1.success + (bulkLoop step st l s f errs).1.failed
      = s + f + l.length
    ∧ (bulkLoop step st l s f errs).1.errors.length + f
      = (bulkLoop step st l s f errs).1.failed + errs.length := by
  intro l
  induction l with
  | nil =>
    intro st s f errs
    simp [bulkLoop]
    omega
  | cons objId rest ih =>
    intro st s f errs
    rcases h : step st objId with ⟨b, st1⟩
    cases b
    · have h2 := ih st1 s (f + 1) (errs ++ [objId])
      simp only [bulkLoop, h, List.length_cons, List.length_append,
        List.length_nil] at h2 ⊢
      omega
    · have h2 := ih st1 (s + 1) f errs
      simp only [bulkLoop, h, List.length_cons] at h2 ⊢
      omega

/-- The truncated id list processed by a detailed bulk operation has
length `min (length ids) MAX_BULK_SIZE`. -/
theorem truncLen (ids : List Int) :
    (if ids.length > MAX_BULK_SIZE then ids.take MAX_BULK_SIZE else ids).length
      = min ids.length MAX_BULK_SIZE := by
  by_cases h : ids.length > MAX_BULK_SIZE
  · simp [h, List.length_take]
    omega
  · simp [h]
    omega

/-! ## C1 -/

/-- C1 counterexample: the claim ties `success + failed` to the number
of *de-duplicated* ids, but `bulk_add_tags_detailed` processes the id
list exactly as passed and the host/trigger orchestration never
de-duplicates: on the list `[5, 5]` (remote unreachable) both copies
are processed, so `success + failed = 2` while
`min |dedup [5,5]| MAX_BULK_SIZE = 1`. -/
theorem c1_counterexample :
    ¬ ((bulk_add_tags_detailed .host envTransport (freshSt cfgToken) [5, 5] "env" "x").1.success
        + (bulk_add_tags_detailed .host envTransport (freshSt cfgToken) [5, 5] "env" "x").1.failed
       = min (([5, 5] : List Int).dedup.length) MAX_BULK_SIZE) := by
  decide

/-- Counting invariant of the detailed bulk add. -/
theorem bulk_add_counts (k : Kind) (env : Nat → HResp) (st : ClientSt)
    (ids : List Int) (tag_name tag_value : String) :
    (bulk_add_tags_detailed k env st ids tag_name tag_value).1.success
        + (bulk_add_tags_detailed k env st ids tag_name tag_value).1.failed
       = min ids.length MAX_BULK_SIZE
    ∧ (bulk_add_tags_detailed k env st ids tag_name tag_value).1.errors.length
       = (bulk_add_tags_detailed k env st ids tag_name tag_value).1.failed := by
  unfold bulk_add_tags_detailed
  by_cases he : ids.isEmpty
  · have : ids = [] := List.isEmpty_iff.mp he
    subst this
    simp [MAX_BULK_SIZE]
  · simp only [he, if_false, Bool.false_eq_true]
    have h1 := bulkLoop_counts (fun s i => add_tag k env s i tag_name tag_value)
      (if ids.length > MAX_BULK_SIZE then ids.take MAX_BULK_SIZE else ids) st 0 0 []
    have h2 := truncLen ids
    constructor
    · omega
    · have := h1.2
      simp only [List.length_nil] at this
      omega

/-- Counting invariant of the detailed bulk remove. -/
theorem bulk_remove_counts (k : Kind) (env : Nat → HResp) (st : ClientSt)
    (ids : List Int) (tag_name : String) :
    (bulk_remove_tags_detailed k env st ids tag_name).1.success
        + (bulk_remove_tags_detailed k env st ids tag_name).1.failed
       = min ids.length MAX_BULK_SIZE
    ∧ (bulk_remove_tags_detailed k env st ids tag_name).1.errors.length
       = (bulk_remove_tags_detailed k env st ids tag_name).1.failed := by
  unfold bulk_remove_tags_detailed
  by_cases he : ids.isEmpty
  · have : ids = [] := List.isEmpty_iff.mp he
    subst this
    simp [MAX_BULK_SIZE]
  · simp only [he, if_false, Bool.false_eq_true]
    have h1 := bulkLoop_counts (fun s i => remove_tag k env s i tag_name)
      (if ids.length > MAX_BULK_SIZE then ids.take MAX_BULK_SIZE else ids) st 0 0 []
    have h2 := truncLen ids
    constructor
    · omega
    · have := h1.2
      simp only [List.length_nil] at this
      omega

/-- C1 (amended): for every bulk detailed mutation (add or remove, any
kind, any id list, any remote behavior), `success + failed` equals
`min (length of the id list as passed) MAX_BULK_SIZE` — the cap
truncation is applied, but de-duplication is not performed here (the
item orchestration endpoint alone de-duplicates beforehand) — and
`errors` has exactly `failed` entries. -/
theorem c1_bulk_counts (k : Kind) (env : Nat → HResp) (st : ClientSt)
    (ids : List Int) (tag_name tag_value : String) :
    ((bulk_add_tags_detailed k env st ids tag_name tag_value).1.success
        + (bulk_add_tags_detailed k env st ids tag_name tag_value).1.failed
       = min ids.length MAX_BULK_SIZE
     ∧ (bulk_add_tags_detailed k env st ids tag_name tag_value).1.errors.length
       = (bulk_add_tags_detailed k env st ids tag_name tag_value).1.failed)
    ∧ ((bulk_remove_tags_detailed k env st ids tag_name).1.success
        + (bulk_remove_tags_detailed k env st ids tag_name).1.failed
       = min ids.length MAX_BULK_SIZE
     ∧ (bulk_remove_tags_detailed k env st ids tag_name).1.errors.length
       = (bulk_remove_tags_detailed k env st ids tag_name).1.failed) :=
  ⟨bulk_add_counts k env st ids tag_name tag_value,
   bulk_remove_counts k env st ids tag_name⟩

/-! ## C8 -/

/-- C8: a detailed bulk mutation on the empty id list short-circuits
to `{success: 0, failed: 0, errors: []}` with the client state
untouched — in particular no remote call of any kind is made. -/
theorem c8_empty_bulk (k : Kind) (env : Nat → HResp) (st : ClientSt)
    (tag_name tag_value : String) :
    bulk_add_tags_detailed k env st [] tag_name tag_value
        = ({ success := 0, failed := 0, errors := [] }, st)
    ∧ bulk_remove_tags_detailed k env st [] tag_name
        = ({ success := 0, failed := 0, errors := [] }, st) := by
  constructor <;> rfl

/-! ## C9 -/

/-- C9: a single-object mutation with a non-positive id fails
immediately, returning the client state unchanged — neither the object
fetch nor the update is attempted. -/
theorem c9_nonpositive_id (k : Kind) (env : Nat → HResp) (st : ClientSt)
    (objId : Int) (tag_name tag_value : String) (h : objId ≤ 0) :
    add_tag k env st objId tag_name tag_value = (false, st)
    ∧ remove_tag k env st objId tag_name = (false, st) := by
  constructor
  · unfold add_tag
    split
    · rfl
    · simp [h]
  · unfold remove_tag
    split
    · rfl
    · simp [h]

/-- Witness for C9 at the concrete id `0`. -/
theorem c9_witness :
    add_tag .host envHostOne stToken 0 "env" "x" = (false, stToken)
    ∧ remove_tag .host envHostOne stToken 0 "env" = (false, stToken) :=
  c9_nonpositive_id .host envHostOne stToken 0 "env" "x" (by decide)

/-! ## C10 -/

/-- C10: a list fetch always yields a list; when the underlying request
fails (transport error, error-shaped response, exhausted re-auth) it
yields the empty list, indistinguishable from a genuinely empty remote
listing. -/
theorem c10_list_fallback (k : Kind) (env : Nat → HResp) (st : ClientSt) :
    ((makeRequest env st (kindGetMethod k) .listP).1 = none
      → (get_list k env st).1 = [])
    ∧ ((makeRequest env st (kindGetMethod k) .listP).1 = some (.vlist [])
      → (get_list k env st).1 = []) := by
  unfold get_list
  rcases hm : makeRequest env st (kindGetMethod k) .listP with ⟨r, st1⟩
  constructor
  · intro h
    simp only at h
    subst h
    rfl
  · intro h
    simp only at h
    subst h
    rfl

/-- Witness for C10: against an unreachable remote, `get_list` returns
the empty list. -/
theorem c10_witness :
    (get_list .host envTransport stToken).1 = [] :=
  (c10_list_fallback .host envTransport stToken).1 (by decide)

/-! ## C2 -/

/-- C2 counterexample: host 1 already carries a tag named `env`;
adding `env` again returns failure (`False`), not success as the
claim states (zabbix_api.py:209-212 returns `False` on a duplicate). -/
theorem c2_counterexample :
    ¬ ((add_tag .host envHostOne stToken 1 "env" "x").1 = true) := by
  decide

/-- C2 (amended): adding a tag whose name the object already carries
is a no-op treated as *failure*: the call returns `false`, issues no
remote update call (the only remote call is the one object fetch), and
leaves the tag list untouched (so a name present exactly once stays
present exactly once). -/
theorem c2_duplicate_add (k : Kind) (env : Nat → HResp) (st : ClientSt)
    (objId : Int) (tag_name tag_value : String) (obj : RObj)
    (hv : validate_tag_input tag_name tag_value = true)
    (hid : 0 < objId)
    (ht : authTruthy st = true)
    (henv : env st.calls = .ok (.vlist [obj]))
    (hdup : obj.tags.any (fun t => t.tag == tag_name) = true) :
    add_tag k env st objId tag_name tag_value
      = (false,
         { st with
           calls := st.calls + 1,
           log := st.log ++ [⟨kindGetMethod k, .getP [objId]⟩] }) := by
  have hk : (kindGetMethod k = "user.login") = False := by
    cases k <;> simp [kindGetMethod]
  have hid2 : (objId ≤ 0) = False := by
    simp
    omega
  unfold add_tag get_details makeRequest makeRequestAux post
  simp [hv, hid2, hk, ht, henv, hdup]

/-- Witness for C2 at the concrete fixture. -/
theorem c2_witness :
    add_tag .host envHostOne stToken 1 "env" "x"
      = (false,
         { stToken with
           calls := stToken.calls + 1,
           log := stToken.log ++ [⟨kindGetMethod .host, .getP [1]⟩] }) :=
  c2_duplicate_add .host envHostOne stToken 1 "env" "x" hostOne
    (by decide) (by decide) (by decide) rfl (by decide)

/-! ## C3 -/

/-- C3 counterexample: host 1 carries no tag named `missing`; removing
`missing` returns failure (`False`), not the success/no-op the claim
states (zabbix_api.py:262-264 returns `False` when nothing matched). -/
theorem c3_counterexample :
    ¬ ((remove_tag .host envHostOne stToken 1 "missing").1 = true) := by
  decide

/-- C3 (amended): removing a tag name the object does not carry is a
no-op treated as *failure*: the call returns `false`, issues no remote
update call (the only remote call is the one object fetch), and leaves
the object's tag list unchanged. -/
theorem c3_missing_remove (k : Kind) (env : Nat → HResp) (st : ClientSt)
    (objId : Int) (tag_name : String) (obj : RObj)
    (hn : ¬ (strTrim tag_name = ""))
    (hid : 0 < objId)
    (ht : authTruthy st = true)
    (henv : env st.calls = .ok (.vlist [obj]))
    (habs : obj.tags.any (fun t => t.tag == tag_name) = false) :
    remove_tag k env st objId tag_name
      = (false,
         { st with
           calls := st.calls + 1,
           log := st.log ++ [⟨kindGetMethod k, .getP [objId]⟩] }) := by
  have hk : (kindGetMethod k = "user.login") = False := by
    cases k <;> simp [kindGetMethod]
  have hid2 : (objId ≤ 0) = False := by
    simp
    omega
  have hfilter : obj.tags.filter (fun t => !(t.tag == tag_name)) = obj.tags := by
    rw [List.filter_eq_self]
    intro a ha
    simp only [List.any_eq_false] at habs
    simp [habs a ha]
  unfold remove_tag get_details makeRequest makeRequestAux post
  simp [hn, hid2, hk, ht, henv, hfilter]

/-- Witness for C3 at the concrete fixture. -/
theorem c3_witness :
    remove_tag .host envHostOne stToken 1 "missing"
      = (false,
         { stToken with
           calls := stToken.calls + 1,
           log := stToken.log ++ [⟨kindGetMethod .host, .getP [1]⟩] }) :=
  c3_missing_remove .host envHostOne stToken 1 "missing" hostOne
    (by decide) (by decide) (by decide) rfl (by decide)

/-! ## C4 -/

/-- C4: behavior of `make_request` on failures, starting from a client
that holds a token.  (a) Password mode: an error-shaped response with
an authentication/session message clears the token and the request is
retried exactly once after re-authenticating — the final state shows
exactly three POSTs (the original call, one `user.login`, one retried
call) and a second failure yields `none` with no further attempt.
(b) Static-token mode: such an error is never retried — exactly one
POST.  (c) A transport failure is never retried — exactly one POST. -/
theorem c4_auth_retry (env : Nat → HResp) (st : ClientSt) (method : String)
    (params : Params) (hm : ¬ (method = "user.login"))
    (ht : authTruthy st = true) :
    (∀ u p e1 tok e2,
       truthyOpt st.cfg.apiToken = false →
       st.cfg.username = some u → u.isEmpty = false →
       st.cfg.password = some p → p.isEmpty = false →
       env st.calls = .err e1 → isAuthErrMsg e1 = true →
       env (st.calls + 1) = .ok tok →
       env (st.calls + 2) = .err e2 →
       makeRequest env st method params
         = (none,
            { st with
              authToken := some tok,
              calls := st.calls + 3,
              log := st.log ++ [⟨method, params⟩, ⟨"user.login", .loginP u p⟩,
                                ⟨method, params⟩] }))
    ∧ (∀ e1,
       truthyOpt st.cfg.apiToken = true →
       env st.calls = .err e1 → isAuthErrMsg e1 = true →
       makeRequest env st method params
         = (none,
            { st with
              calls := st.calls + 1,
              log := st.log ++ [⟨method, params⟩] }))
    ∧ (env st.calls = .transport →
       makeRequest env st method params
         = (none,
            { st with
              calls := st.calls + 1,
              log := st.log ++ [⟨method, params⟩] })) := by
  refine ⟨?_, ?_, ?_⟩
  · intro u p e1 tok e2 htok hu hu2 hp hp2 h0 he1 h1 h2
    have htok2 : (match st.cfg.apiToken with
        | none => false
        | some s => !s.isEmpty) = false := htok
    unfold makeRequest makeRequestAux post authenticate
    simp only [hm, ht, htok, hu, hp, h0, if_false, if_true, ite_true, ite_false]
    simp [makeRequestAux, post, authenticate, authTruthy, truthyOpt,
      hm, ht, htok, htok2, hu, hu2, hp, hp2, h0, he1, h1, h2]
  · intro e1 htok h0 he1
    unfold makeRequest makeRequestAux post
    simp [hm, ht, htok, h0, he1]
  · intro h0
    unfold makeRequest makeRequestAux post
    simp [hm, ht, h0]

/-- Witness for C4 at the fixture remote `envRetry`: the password-mode
client makes exactly three POSTs and reports failure. -/
theorem c4_witness :
    makeRequest envRetry stPass "host.get" Params.listP
      = (none,
         { stPass with
           authToken := some (.vstr "tok2"),
           calls := stPass.calls + 3,
           log := stPass.log ++ [⟨"host.get", .listP⟩,
                                 ⟨"user.login", .loginP "u" "pw"⟩,
                                 ⟨"host.get", .listP⟩] }) :=
  (c4_auth_retry envRetry stPass "host.get" .listP (by decide) (by decide)).1
    "u" "pw" "session expired" (.vstr "tok2") "session expired"
    (by decide) rfl (by decide) rfl (by decide) rfl (by decide) rfl rfl

/-! ## C7 -/

/-- Tags rebuilt by the `clean_tags` loop never carry `automatic`. -/
theorem stripAuto_all (l : List RTag) :
    (l.map stripAuto).all (fun t => t.automatic.isNone) = true := by
  induction l with
  | nil => rfl
  | cons a l ih => simp [stripAuto, ih]

/-- Appending to a clean log stays clean iff the appended part is. -/
theorem cleanLog_append (l1 l2 : List CallRec) :
    cleanLog (l1 ++ l2) = (cleanLog l1 && cleanLog l2) := by
  simp [cleanLog, List.all_append]

/-- A POST with clean params preserves log cleanliness. -/
theorem post_clean (env : Nat → HResp) (st : ClientSt) (m : String) (p : Params)
    (hp : cleanP p = true) (h : cleanLog st.log = true) :
    cleanLog (post env st m p).2.log = true := by
  simp only [post, cleanLog_append]
  simp only [cleanLog] at h ⊢
  simp [h, hp]

/-- The function `authenticate` only ever logs a login call, which is clean. -/
theorem authenticate_clean (env : Nat → HResp) (st : ClientSt)
    (h : cleanLog st.log = true) :
    cleanLog (authenticate env st).2.log = true := by
  unfold authenticate
  split
  · simpa using h
  · split
    · simpa using h
    · simp only [post]
      have h2 : cleanLog (st.log ++ [(⟨"user.login",
          .loginP (st.cfg.username.getD "") (st.cfg.password.getD "")⟩ : CallRec)])
          = true := by
        rw [cleanLog_append, Bool.and_eq_true]
        exact ⟨h, rfl⟩
      split <;>
      · rename_i heq
        injection heq with h3 h4
        rw [← h4]
        simpa using h2

/-- Requests with clean params preserve log cleanliness, at any
retry budget. -/
theorem makeRequestAux_clean (env : Nat → HResp) :
    ∀ (fuel : Nat) (st : ClientSt) (m : String) (p : Params),
    cleanP p = true → cleanLog st.log = true →
    cleanLog (makeRequestAux env fuel st m p).2.log = true := by
  have hpre : ∀ (st : ClientSt) (m : String) (b : Bool) (st1 : ClientSt),
      cleanLog st.log = true →
      (if m = "user.login" then (true, st)
       else if authTruthy st then (true, st)
       else authenticate env st) = (b, st1) →
      cleanLog st1.log = true := by
    intro st m b st1 h hb
    split at hb
    · cases hb
      exact h
    · split at hb
      · cases hb
        exact h
      · have := authenticate_clean env st h
        rw [hb] at this
        exact this
  intro fuel
  induction fuel with
  | zero =>
    intro st m p hp h
    simp only [makeRequestAux]
    split
    · rename_i st1 heq
      exact hpre st m false st1 h heq
    · rename_i st1 heq
      have h1 := hpre st m true st1 h heq
      have h2 : cleanLog (st1.log ++ [(⟨m, p⟩ : CallRec)]) = true := by
        rw [cleanLog_append, Bool.and_eq_true]
        refine ⟨h1, ?_⟩
        simp [cleanLog, hp]
      simp only [post]
      split <;>
      · rename_i heq2
        injection heq2 with h3 h4
        rw [← h4]
        simpa using h2
  | succ f ih =>
    intro st m p hp h
    rw [makeRequestAux]
    split
    · rename_i st1 heq
      exact hpre st m false st1 h heq
    · rename_i st1 heq
      have h1 := hpre st m true st1 h heq
      have h2 : cleanLog (st1.log ++ [(⟨m, p⟩ : CallRec)]) = true := by
        rw [cleanLog_append, Bool.and_eq_true]
        refine ⟨h1, ?_⟩
        simp [cleanLog, hp]
      simp only [post]
      split
      · rename_i heq2
        injection heq2 with h3 h4
        rw [← h4]
        simpa using h2
      · rename_i heq2
        injection heq2 with h3 h4
        rw [← h4]
        simpa using h2
      · rename_i heq2
        injection heq2 with h3 h4
        rw [← h4]
        split
        · split
          · simpa using h2
          · split
            · simpa using h2
            · refine ih _ m p hp ?_
              simpa using h2
        · simpa using h2

/-- The wrapper `makeRequest` (default retry budget) preserves log cleanliness. -/
theorem makeRequest_clean (env : Nat → HResp) (st : ClientSt) (m : String)
    (p : Params) (hp : cleanP p = true) (h : cleanLog st.log = true) :
    cleanLog (makeRequest env st m p).2.log = true :=
  makeRequestAux_clean env 1 st m p hp h

/-- Object fetches preserve log cleanliness. -/
theorem get_details_clean (k : Kind) (env : Nat → HResp) (st : ClientSt)
    (objId : Int) (h : cleanLog st.log = true) :
    cleanLog (get_details k env st objId).2.log = true := by
  have h2 := makeRequest_clean env st (kindGetMethod k) (.getP [objId]) rfl h
  unfold get_details
  split <;>
  · rename_i heq
    rw [heq] at h2
    simpa using h2

/-- C7: any tag mutation (add or remove, any object kind) keeps the
call log free of `automatic` fields in pushed tag lists: whatever tags
reach the remote update call carry only `tag` and `value`. -/
theorem c7_no_automatic_pushed (k : Kind) (env : Nat → HResp) (st : ClientSt)
    (objId : Int) (tag_name tag_value : String)
    (h : cleanLog st.log = true) :
    cleanLog (add_tag k env st objId tag_name tag_value).2.log = true
    ∧ cleanLog (remove_tag k env st objId tag_name).2.log = true := by
  constructor
  · unfold add_tag
    split
    · simpa using h
    · split
      · simpa using h
      · split
        · rename_i st1 heq
          have h1 := get_details_clean k env st objId h
          rw [heq] at h1
          simpa using h1
        · rename_i obj st1 heq
          have h1 := get_details_clean k env st objId h
          rw [heq] at h1
          simp only at h1
          split
          · simpa using h1
          · have hcp : cleanP (.updateP objId
                ((obj.tags ++ [(⟨tag_name, tag_value, none⟩ : RTag)]).map stripAuto)) = true := by
              simp only [cleanP]
              exact stripAuto_all _
            have h3 := makeRequest_clean env st1 (kindUpdateMethod k)
              (.updateP objId ((obj.tags ++ [(⟨tag_name, tag_value, none⟩ : RTag)]).map stripAuto))
              hcp h1
            split
            rename_i res st2 heq2
            rw [heq2] at h3
            simpa using h3
  · unfold remove_tag
    split
    · simpa using h
    · split
      · simpa using h
      · split
        · rename_i st1 heq
          have h1 := get_details_clean k env st objId h
          rw [heq] at h1
          simpa using h1
        · rename_i obj st1 heq
          have h1 := get_details_clean k env st objId h
          rw [heq] at h1
          simp only at h1
          split
          · simpa using h1
          · have hcp : cleanP (.updateP objId
                ((obj.tags.filter (fun t => !(t.tag == tag_name))).map stripAuto)) = true := by
              simp only [cleanP]
              exact stripAuto_all _
            have h3 := makeRequest_clean env st1 (kindUpdateMethod k)
              (.updateP objId ((obj.tags.filter (fun t => !(t.tag == tag_name))).map stripAuto))
              hcp h1
            split
            rename_i res st2 heq2
            rw [heq2] at h3
            simpa using h3

/-- Witness for C7: a concrete add (which pushes an update) and a
concrete remove, both starting from an empty (clean) log. -/
theorem c7_witness :
    cleanLog (add_tag .host envHostOne stToken 2 "team" "core").2.log = true
    ∧ cleanLog (remove_tag .host envHostOne stToken 2 "team").2.log = true :=
  c7_no_automatic_pushed .host envHostOne stToken 2 "team" "core" (by decide)

/-! ## C5 -/

/-- C5 counterexample: on the host bulk endpoint the inbound list
`["5,6", "7"]` is NOT split into `{5, 6, 7}` — `int("5,6")` fails, so
the whole request is rejected as "Invalid host IDs" with no remote
call, and the host-side parser yields nothing. -/
theorem c5_counterexample :
    bulk_tag_operation cfgToken envLoginOk reqGroup
        = (.failure "Invalid host IDs", freshSt cfgToken)
    ∧ parseHostIds reqGroup.ids = none := by
  decide

/-- C5 (amended): only the *item* bulk endpoint splits comma-joined id
groups, trims tokens and de-duplicates before any remote call; the
host (and trigger) endpoints parse each element as one integer, so an
unparsable element — including a comma-joined group — rejects the
whole request before any remote call.  (i) item endpoint: parse
failure rejects with the pristine client state (zero remote calls);
(ii) host endpoint: likewise; (iii) item endpoint with a successful
parse and `add` dispatches the de-duplicated ids to the bulk add, whose
counts then total `min |dedup ids| MAX_BULK_SIZE`. -/
theorem c5_id_parsing :
    (∀ (cfg : Config) (env : Nat → HResp) (req : BulkReq) (t : String),
      req.tag = some t → ¬ (strTrim t = "") → req.ids.isEmpty = false →
      parseItemIds req.ids = none →
      bulk_item_operation cfg env req = (.failure "Invalid item IDs", freshSt cfg))
    ∧ (∀ (cfg : Config) (env : Nat → HResp) (req : BulkReq) (t : String),
      req.tag = some t → ¬ (strTrim t = "") → req.ids.isEmpty = false →
      parseHostIds req.ids = none →
      bulk_tag_operation cfg env req = (.failure "Invalid host IDs", freshSt cfg))
    ∧ (∀ (cfg : Config) (env : Nat → HResp) (req : BulkReq) (t : String)
        (parsed : List Int) (st1 : ClientSt),
      req.tag = some t → ¬ (strTrim t = "") → req.ids.isEmpty = false →
      parseItemIds req.ids = some parsed →
      (t.length > 255 || (!req.value.isEmpty && req.value.length > 255)) = false →
      authenticate env (freshSt cfg) = (true, st1) →
      req.operation = some "add" →
      bulk_item_operation cfg env req
        = (.okDetails (bulkMsg "added to" "items"
             (bulk_add_tags_detailed .item env st1 parsed.dedup t req.value).1)
             (bulk_add_tags_detailed .item env st1 parsed.dedup t req.value).1,
           (bulk_add_tags_detailed .item env st1 parsed.dedup t req.value).2)
      ∧ (bulk_add_tags_detailed .item env st1 parsed.dedup t req.value).1.success
          + (bulk_add_tags_detailed .item env st1 parsed.dedup t req.value).1.failed
        = min parsed.dedup.length MAX_BULK_SIZE) := by
  refine ⟨?_, ?_, ?_⟩
  · intro cfg env req t htag hn hne hparse
    unfold bulk_item_operation
    rw [htag]
    simp [hn, hne, hparse]
  · intro cfg env req t htag hn hne hparse
    unfold bulk_tag_operation
    rw [htag]
    simp [hn, hne, hparse]
  · intro cfg env req t parsed st1 htag hn hne hparse hlen hauth hop
    have hcounts := bulk_add_counts .item env st1 parsed.dedup t req.value
    refine ⟨?_, hcounts.1⟩
    unfold bulk_item_operation
    rw [htag]
    rcases hb : bulk_add_tags_detailed .item env st1 parsed.dedup t req.value with ⟨r, st2⟩
    simp [hn, hne, hparse, hlen, hauth, hop, hb]

/-- Witness for C5: the three parts at concrete requests — an
unparsable item id, a comma-joined host id group, and an item add over
`["5,6", "7", "5"]`. -/
theorem c5_witness :
    (bulk_item_operation cfgToken envTransport reqBadIds
        = (.failure "Invalid item IDs", freshSt cfgToken))
    ∧ (bulk_tag_operation cfgToken envTransport reqGroup
        = (.failure "Invalid host IDs", freshSt cfgToken))
    ∧ ((bulk_item_operation cfgToken envTransport reqItemAdd
        = (.okDetails (bulkMsg "added to" "items"
             (bulk_add_tags_detailed .item envTransport stTokenAuthed
               (([5, 6, 7, 5] : List Int).dedup) "env" "").1)
             (bulk_add_tags_detailed .item envTransport stTokenAuthed
               (([5, 6, 7, 5] : List Int).dedup) "env" "").1,
           (bulk_add_tags_detailed .item envTransport stTokenAuthed
             (([5, 6, 7, 5] : List Int).dedup) "env" "").2))
      ∧ (bulk_add_tags_detailed .item envTransport stTokenAuthed
           (([5, 6, 7, 5] : List Int).dedup) "env" "").1.success
          + (bulk_add_tags_detailed .item envTransport stTokenAuthed
             (([5, 6, 7, 5] : List Int).dedup) "env" "").1.failed
        = min (([5, 6, 7, 5] : List Int).dedup.length) MAX_BULK_SIZE) :=
  ⟨c5_id_parsing.1 cfgToken envTransport reqBadIds "env" rfl (by decide) rfl (by decide),
   c5_id_parsing.2.1 cfgToken envTransport reqGroup "env" rfl (by decide) rfl (by decide),
   c5_id_parsing.2.2 cfgToken envTransport reqItemAdd "env" [5, 6, 7, 5] stTokenAuthed
     rfl (by decide) rfl (by decide) (by decide) rfl rfl⟩

/-! ## C6 -/

/-- Running `authenticate` from a fresh client can log at most the login call,
and with a static API token it issues no remote call at all. -/
theorem authenticate_fresh (cfg : Config) (env : Nat → HResp) :
    ((authenticate env (freshSt cfg)).2.log.all
        (fun rec => rec.method == "user.login")) = true
    ∧ (truthyOpt cfg.apiToken = true → (authenticate env (freshSt cfg)).2.calls = 0) := by
  unfold authenticate freshSt post
  split
  · exact ⟨rfl, fun _ => rfl⟩
  · split
    · exact ⟨rfl, fun _ => rfl⟩
    · rename_i hnot1 hnot2
      refine ⟨?_, fun htok => absurd htok hnot1⟩
      split <;>
      · rename_i heq
        injection heq with h3 h4
        rw [← h4]
        rfl

/-- C6 counterexample: a password-authenticated client answers a
`"toggle"` bulk request with the "Unknown operation" failure, but only
after a remote call (the login POST) has already been issued — so "no
remote call of any kind" is false. -/
theorem c6_counterexample :
    (bulk_tag_operation cfgPass envLoginOk reqToggle).1 = .failure "Unknown operation"
    ∧ ¬ ((bulk_tag_operation cfgPass envLoginOk reqToggle).2.calls = 0) := by
  decide

/-- C6 (amended): an otherwise valid bulk request whose operation is
neither `"add"` nor `"remove"` yields the "Unknown operation" failure
and never triggers a tag fetch, update or bulk mutation; however,
because authentication runs before the operation is inspected, a
password-configured client has already issued its login POST (the only
possible remote call, as the log shows), while a static-token client
issues no remote call at all.  Both the host and the item endpoints
behave this way. -/
theorem c6_unknown_operation :
    (∀ (cfg : Config) (env : Nat → HResp) (req : BulkReq) (t : String)
        (l : List Int) (st1 : ClientSt),
      req.tag = some t → ¬ (strTrim t = "") → req.ids.isEmpty = false →
      parseHostIds req.ids = some l →
      (t.length > 255 || (!req.value.isEmpty && req.value.length > 255)) = false →
      authenticate env (freshSt cfg) = (true, st1) →
      ¬ (req.operation = some "add") → ¬ (req.operation = some "remove") →
      bulk_tag_operation cfg env req = (.failure "Unknown operation", st1)
      ∧ st1.log.all (fun rec => rec.method == "user.login") = true
      ∧ (truthyOpt cfg.apiToken = true → st1.calls = 0))
    ∧ (∀ (cfg : Config) (env : Nat → HResp) (req : BulkReq) (t : String)
        (l : List Int) (st1 : ClientSt),
      req.tag = some t → ¬ (strTrim t = "") → req.ids.isEmpty = false →
      parseItemIds req.ids = some l →
      (t.length > 255 || (!req.value.isEmpty && req.value.length > 255)) = false →
      authenticate env (freshSt cfg) = (true, st1) →
      ¬ (req.operation = some "add") → ¬ (req.operation = some "remove") →
      bulk_item_operation cfg env req = (.failure "Unknown operation", st1)
      ∧ st1.log.all (fun rec => rec.method == "user.login") = true
      ∧ (truthyOpt cfg.apiToken = true → st1.calls = 0)) := by
  constructor
  · intro cfg env req t l st1 htag hn hne hparse hlen hauth hop1 hop2
    have hfresh := authenticate_fresh cfg env
    rw [hauth] at hfresh
    refine ⟨?_, hfresh.1, hfresh.2⟩
    unfold bulk_tag_operation
    rw [htag]
    simp [hn, hne, hparse, hlen, hauth, hop1, hop2]
  · intro cfg env req t l st1 htag hn hne hparse hlen hauth hop1 hop2
    have hfresh := authenticate_fresh cfg env
    rw [hauth] at hfresh
    refine ⟨?_, hfresh.1, hfresh.2⟩
    unfold bulk_item_operation
    rw [htag]
    simp [hn, hne, hparse, hlen, hauth, hop1, hop2]

/-- Witness for C6: the `"toggle"` request on a password-mode client
whose login succeeds. -/
theorem c6_witness :
    bulk_tag_operation cfgPass envLoginOk reqToggle
        = (.failure "Unknown operation", stPassAuthed)
    ∧ stPassAuthed.log.all (fun rec => rec.method == "user.login") = true
    ∧ (truthyOpt cfgPass.apiToken = true → stPassAuthed.calls = 0) :=
  c6_unknown_operation.1 cfgPass envLoginOk reqToggle "env" [1] stPassAuthed
    rfl (by decide) rfl (by decide) (by decide) (by decide) (by decide) (by decide)
